import Mathlib

set_option maxHeartbeats 1000000

/-!
Verification development for the quiz-chain solver (app/worker.py,
app/utils.py, app/config.py, app/main.py).

The embedding models Python runtime values handled by the worker as a
Json inductive (json.loads only ever hands the worker JSON-able values,
and the Python constant None coincides with the JSON null it produces).
External library routines that the worker calls — json.loads, base64
decoding, the pandas readers and numeric coercion, urljoin, the HTTP
client and the rendering engine — are modelled as oracle fields of a
World structure; everything the worker itself computes (string scanning,
truthiness, dict merging, the heuristic cascade, the chain loop) is
translated directly from the source.

Numeric values are modelled as rationals; the floating-point rounding of
Python floats is out of scope, and every concrete input used below has an
exact small value. Pandas cells are modelled after numeric coercion
(pd.to_numeric with errors="coerce"): a cell is some q when it coerces to
the number q and none when it coerces to NaN; a skipna sum of an all-NaN
column is 0, so the column loops in the source never raise.
-/

/-- JSON values as produced by the Python json module: null, booleans,
numbers (modelled as rationals), strings, arrays and objects. Objects
keep insertion order, matching Python dicts. The Python constant None is
Json.null. -/
inductive Json where
| null : Json
| bool (b : Bool) : Json
| num (q : ℚ) : Json
| str (s : String) : Json
| arr (xs : List Json) : Json
| obj (kvs : List (String × Json)) : Json

/-- Python test v is None for a JSON-able value. -/
def Json.isNull : Json → Bool
| .null => true
| _ => false

/-- Python truthiness of a JSON-able value: None, False, 0, the empty
string, the empty list and the empty dict are falsy. -/
def Json.truthy : Json → Bool
| .null => false
| .bool b => b
| .num q => q ≠ 0
| .str s => s ≠ ""
| .arr xs => ¬ xs.isEmpty
| .obj kvs => ¬ kvs.isEmpty

/-- Python expression a or b on JSON-able values. -/
def pyOr (a b : Json) : Json := if a.truthy then a else b

/-- Lookup in an insertion-ordered association list, as for a Python dict. -/
def lookupKV : List (String × Json) → String → Option Json
| [], _ => none
| (k', v) :: rest, k => if k' == k then some v else lookupKV rest k

/-- Python expression k in d for a dict d (false on non-dict values,
which the worker never reaches). -/
def Json.hasKey (j : Json) (k : String) : Bool :=
  match j with
  | .obj kvs => (lookupKV kvs k).isSome
  | _ => false

/-- Python expression d.get(k, default) for a dict d. -/
def Json.getD (j : Json) (k : String) (d : Json) : Json :=
  match j with
  | .obj kvs => (lookupKV kvs k).getD d
  | _ => d

/-- Lookup returning an Option, for stating key-presence facts. -/
def Json.getKey (j : Json) (k : String) : Option Json :=
  match j with
  | .obj kvs => lookupKV kvs k
  | _ => none

/-- Python isinstance(v, dict) for a JSON-able value. -/
def Json.isObj : Json → Bool
| .obj _ => true
| _ => false

/-- Left brace character, written by code point to keep it out of string
literals. -/
def lbrace : Char := Char.ofNat 123

/-- Right brace character. -/
def rbrace : Char := Char.ofNat 125

/-- Double-quote character. -/
def dquote : Char := Char.ofNat 34

/-- Lowercasing a string, as Python str.lower on ASCII data. -/
def strLower (s : String) : String := String.mk (s.data.map Char.toLower)

/-- List.isPrefixOf is the comparison underlying the substring scan. -/
def containsAux (needle : List Char) : List Char → Bool
| [] => needle.isEmpty
| c :: rest => needle.isPrefixOf (c :: rest) || containsAux needle rest

/-- Python expression needle in hay for strings: substring containment. -/
def strContains (hay needle : String) : Bool := containsAux needle.data hay.data

/-- Python str.startswith. -/
def startsWithStr (s pre : String) : Bool := pre.data.isPrefixOf s.data

/-- Python str.endswith. -/
def endsWithStr (s suf : String) : Bool := suf.data.isSuffixOf s.data

mutual
/-- Rendering of a JSON-able value in the style of json.dumps, used by
the worker only for a case-insensitive substring test. Python escaping of
special characters inside strings and float formatting are not modelled;
neither can produce or destroy a run of ASCII letters such as the probed
word submit on the inputs considered here. -/
def Json.dumps : Json → String
| .null => "null"
| .bool b => if b then "true" else "false"
| .num q => toString q.num ++ "/" ++ toString q.den
| .str s => String.mk (dquote :: s.data) ++ String.mk [dquote]
| .arr xs => "[" ++ dumpsList xs ++ "]"
| .obj kvs => String.mk [lbrace] ++ dumpsPairs kvs ++ String.mk [rbrace]

/-- Comma-joined rendering of array elements. -/
def dumpsList : List Json → String
| [] => ""
| [x] => Json.dumps x
| x :: y :: rest => Json.dumps x ++ ", " ++ dumpsList (y :: rest)

/-- Comma-joined rendering of object entries. -/
def dumpsPairs : List (String × Json) → String
| [] => ""
| [(k, v)] => String.mk (dquote :: k.data) ++ String.mk [dquote] ++ ": " ++ Json.dumps v
| (k, v) :: p :: rest =>
    String.mk (dquote :: k.data) ++ String.mk [dquote] ++ ": " ++ Json.dumps v ++ ", " ++
      dumpsPairs (p :: rest)
end

/-- Index of the first left brace in a character list, modelling
text.find of the brace in utils.try_parse_json_from_text. -/
def firstBrace : List Char → Option Nat
| [] => none
| c :: rest => if c = lbrace then some 0 else (firstBrace rest).map (· + 1)

/-- Substring text[start:e] of a string, by character indices. -/
def sliceStr (text : String) (start e : Nat) : String :=
  String.mk ((text.data.drop start).take (e - start))

/-- Descending scan of utils.try_parse_json_from_text: candidate end
indices e, e-1, ..., start+1, returning the first parse that succeeds.
The parameter P is the json.loads oracle (none models a raised
exception). -/
def tryEnds (P : String → Option Json) (s : List Char) (start : Nat) : Nat → Option Json
| 0 => none
| e + 1 =>
  if e + 1 ≤ start then none
  else
    match P (String.mk ((s.drop start).take (e + 1 - start))) with
    | some v => some v
    | none => tryEnds P s start e

/-- utils.try_parse_json_from_text: find the first left brace, then try
progressively shorter slices starting there until one parses. -/
def try_parse_json_from_text (P : String → Option Json) (text : String) : Option Json :=
  match firstBrace text.data with
  | none => none
  | some start => tryEnds P text.data start text.data.length

/-- Numeric token scanner for the regex of utils.extract_numbers: an
optional minus sign, digits, and an optional fractional part requiring at
least one digit. Returns the parsed value and the number of characters
consumed, or none when no token starts at this position. -/
def numAt (s : List Char) : Option (ℚ × Nat) :=
  let core : List Char → Option (ℚ × Nat) := fun t =>
    let ds := t.takeWhile Char.isDigit
    if ds.isEmpty then none
    else
      let ip : ℕ := ds.foldl (fun a c => a * 10 + (c.toNat - 48)) 0
      let rest := t.drop ds.length
      match rest with
      | '.' :: r2 =>
        let fs := r2.takeWhile Char.isDigit
        if fs.isEmpty then some ((ip : ℚ), ds.length)
        else
          let fp : ℕ := fs.foldl (fun a c => a * 10 + (c.toNat - 48)) 0
          some ((ip : ℚ) + (fp : ℚ) / ((10 : ℚ) ^ fs.length), ds.length + 1 + fs.length)
      | _ => some ((ip : ℚ), ds.length)
  match s with
  | '-' :: t =>
    match core t with
    | some (q, n) => some (-q, n + 1)
    | none => none
  | t => core t

/-- Fuelled left-to-right scan collecting non-overlapping numeric tokens,
as re.finditer does for the number regex. -/
def extractNumbersAux : Nat → List Char → List ℚ
| 0, _ => []
| _ + 1, [] => []
| fuel + 1, c :: rest =>
  match numAt (c :: rest) with
  | some (q, n) => q :: extractNumbersAux fuel ((c :: rest).drop n)
  | none => extractNumbersAux fuel rest

/-- utils.extract_numbers: every numeric token in the text, in order. -/
def extract_numbers (text : String) : List ℚ :=
  extractNumbersAux text.data.length text.data

/-- Characters that stop a URL token: the regex class excludes
whitespace, quotes and angle brackets (ASCII approximation of the Python
\s class). -/
def isUrlStop (c : Char) : Bool :=
  c = ' ' || c = '\t' || c = '\n' || c = '\r' || c = Char.ofNat 11 || c = Char.ofNat 12 ||
    c = Char.ofNat 39 || c = dquote || c = '<' || c = '>'

/-- Length of the scheme matched at this position by the URL regex, when
one matches. -/
def schemeOf (s : List Char) : Option Nat :=
  if ("https://".data).isPrefixOf s then some 8
  else if ("http://".data).isPrefixOf s then some 7
  else none

/-- Fuelled scan for the findall of the URL regex in worker lines 52-55:
at each position, match a scheme and then greedily take allowed
characters (at least one); matches do not overlap. -/
def findUrlsAux : Nat → List Char → List String
| 0, _ => []
| _ + 1, [] => []
| fuel + 1, c :: rest =>
  match schemeOf (c :: rest) with
  | some n =>
    let body := ((c :: rest).drop n).takeWhile (fun ch => ¬ isUrlStop ch)
    if body.isEmpty then findUrlsAux fuel rest
    else
      String.mk ((c :: rest).take n ++ body) :: findUrlsAux fuel ((c :: rest).drop (n + body.length))
  | none => findUrlsAux fuel rest

/-- All URL-looking tokens of a text, as re.findall of the URL regex. -/
def findUrls (text : String) : List String := findUrlsAux text.data.length text.data

/-- Quote characters accepted by the href regex. -/
def isQuoteCh (c : Char) : Bool := c = dquote || c = Char.ofNat 39

/-- Fuelled scan for the findall of the href regex in worker line 94:
match the literal href=, one quote, then at least one non-quote
character (the capture); the scan resumes right after the capture. -/
def findHrefsAux : Nat → List Char → List String
| 0, _ => []
| _ + 1, [] => []
| fuel + 1, c :: rest =>
  if ("href=".data).isPrefixOf (c :: rest) then
    match (c :: rest).drop 5 with
    | q :: afterq =>
      if isQuoteCh q then
        let cap := afterq.takeWhile (fun ch => ¬ isQuoteCh ch)
        if cap.isEmpty then findHrefsAux fuel rest
        else String.mk cap :: findHrefsAux fuel ((c :: rest).drop (6 + cap.length))
      else findHrefsAux fuel rest
    | [] => findHrefsAux fuel rest
  else findHrefsAux fuel rest

/-- All href attribute values of a markup text, as re.findall of the
href regex. -/
def findHrefs (markup : String) : List String := findHrefsAux markup.data.length markup.data

/-- A pandas dataframe, modelled as its ordered columns. Each cell is
recorded after numeric coercion: some q when pd.to_numeric yields q and
none when it yields NaN. -/
structure Df where
  cols : List (String × List (Option ℚ))

/-- Skipna sum of a coerced column, as float(pd.to_numeric(col,
errors="coerce").sum()); an all-NaN column sums to 0. -/
def sumCells (cells : List (Option ℚ)) : ℚ := (cells.filterMap id).sum

/-- utils.sum_dataframe_column: sum the named column when present, else
retry with a case-insensitive match (the dict comprehension in the
source keeps the last column for each lowercased name), else None. Both
the astype path and the character-stripping fallback of the source
produce the coerced sum, which is what the cell model records. -/
def sum_dataframe_column (df : Df) (colName : String) : Option ℚ :=
  match df.cols.find? (fun p => p.1 == colName) with
  | some p => some (sumCells p.2)
  | none =>
    match df.cols.reverse.find? (fun p => strLower p.1 == strLower colName) with
    | some p => some (sumCells p.2)
    | none => none

/-- Raw bytes of a fetched resource. -/
abbrev Bytes := List Nat

/-- Outcome of an HTTP POST that did not raise: the parsed JSON body
when r.json() succeeds, else the status code and raw text that the
worker wraps in its place. -/
structure PostResp where
  jsonBody : Option Json
  statusCode : ℤ
  text : String

/-- Oracles for every external library routine the worker calls. A
field returning Except models a call that can raise; the error string is
the str(e) the worker would record. The pdfplumber path of the source is
dead code: worker.py never imports io, so the io.BytesIO call at line
148 raises NameError and the except at line 151 always falls back to a
permissive utf-8 decode of the raw bytes, modelled by bytesDecodeUtf8. -/
structure World where
  jsonLoads : String → Option Json
  decode_base64_block : String → Option String
  qMatchCol : String → Option String
  read_html : String → Option Df
  fetch_bytes : String → Except String Bytes
  read_csv : Bytes → Except String Df
  read_excel : Bytes → Except String Df
  bytesDecodeUtf8 : Bytes → String
  urljoin : Json → String → String
  post : Json → Json → Except String PostResp

/-- The two renderings of a navigated page: page.inner_text of the body
and page.content. -/
structure Content where
  plain : String
  markup : String

/-- Python or of two optional JSON results (worker line 43): a falsy
first result falls through to the second. -/
def pyOrOptJson (a b : Option Json) : Option Json :=
  match a with
  | some j => if j.truthy then some j else b
  | none => b

/-- Python or of two optional strings (worker line 46). -/
def pyOrOptStr (a b : Option String) : Option String :=
  match a with
  | some s => if s ≠ "" then some s else b
  | none => b

/-- Worker line 43: parsed_json from the plain text, else from the
markup. -/
def pageParsedJson (w : World) (c : Content) : Option Json :=
  pyOrOptJson (try_parse_json_from_text w.jsonLoads c.plain)
    (try_parse_json_from_text w.jsonLoads c.markup)

/-- Worker line 46: decoded base64 block from the plain text, else from
the markup. -/
def pageDecoded (w : World) (c : Content) : Option String :=
  pyOrOptStr (w.decode_base64_block c.plain) (w.decode_base64_block c.markup)

/-- Worker lines 49-61: the link-derived submit-URL guess. URL tokens
are scanned from the plain page text; the first candidate containing
submit or answer (the source checks submit both raw and lowercased and
answer lowercased) wins, else the first candidate overall. None of the
branches fire when the text holds no URL token. -/
def linkGuess (plain : String) : Json :=
  match findUrls plain with
  | [] => .null
  | c0 :: cs =>
    match (c0 :: cs).find? (fun u =>
        strContains u "submit" || strContains (strLower u) "submit" ||
          strContains (strLower u) "answer") with
    | some u => .str u
    | none => .str c0

/-- Worker lines 63-67: a truthy parsed JSON value whose dumps rendering
contains the word submit (case-insensitively) is adopted as the payload
template. -/
def template64 (w : World) (c : Content) : Option Json :=
  match pageParsedJson w c with
  | none => none
  | some pj =>
    if pj.truthy && strContains (strLower (Json.dumps pj)) "submit" then some pj else none

/-- Test for the three template keys email, secret and url. -/
def hasTemplateKeys (j : Json) : Bool :=
  j.hasKey "email" && j.hasKey "secret" && j.hasKey "url"

/-- Worker lines 63-72: the payload template in scope after both
detection sites ran — the three-key test on the plain-text parse
overwrites the dumps-contains-submit adoption. -/
def detectTemplate (w : World) (c : Content) : Option Json :=
  match try_parse_json_from_text w.jsonLoads c.plain with
  | some jsn => if jsn.truthy && hasTemplateKeys jsn then some jsn else template64 w c
  | none => template64 w c

/-- Worker line 73: when the three-key template was detected, the
submit-URL guess is replaced by its submit field (defaulting to the
previous guess) or-else its url field (same default). -/
def submitUrlAfterTemplate (w : World) (c : Content) (guess : Json) : Json :=
  match try_parse_json_from_text w.jsonLoads c.plain with
  | some jsn =>
    if jsn.truthy && hasTemplateKeys jsn then
      pyOr (jsn.getD "submit" guess) (jsn.getD "url" guess)
    else guess
  | none => guess

/-- Worker lines 80-82 and the locals() probe of lines 113/130/158: the
column name in scope during an iteration is the fresh regex capture when
the sum-of-column pattern matched, else whatever a previous iteration of
the same chain left behind. -/
def colnameOf (w : World) (c : Content) (pcol : Option String) : Option String :=
  match w.qMatchCol c.plain with
  | some cn => some cn
  | none => pcol

/-- Heuristic 1 (worker lines 79-89): on a sum-of-column instruction,
parse the first HTML table of the markup and sum the named column. -/
def s1 (w : World) (c : Content) : Option (Json × String) :=
  match w.qMatchCol c.plain with
  | none => none
  | some cn =>
    match w.read_html c.markup with
    | none => none
    | some df => (sum_dataframe_column df cn).map (fun s => (Json.num s, "html-table-sum"))

/-- Worker lines 94-99: the first href value containing a data-file
extension as a substring of its lowercasing. -/
def findFileLink (markup : String) : Option String :=
  (findHrefs markup).find? (fun L =>
    strContains (strLower L) ".pdf" || strContains (strLower L) ".csv" ||
      strContains (strLower L) ".xls" || strContains (strLower L) ".xlsx")

/-- Worker lines 102-107: protocol-relative links get an https scheme;
root-relative links are joined against the current page URL. -/
def resolveLink (w : World) (currentUrl : Json) (L : String) : String :=
  let L1 := if startsWithStr L "//" then "https:" ++ L else L
  if startsWithStr L1 "/" then w.urljoin currentUrl L1 else L1

/-- Heuristic 2 (worker lines 92-170): fetch the first linked data file
and sum a column. The second component is the file_error diagnostic that
the except at line 169 records when the fetch or a parse raises. With a
known column name the named column is summed; without one the first
column of the frame is summed unconditionally (the coercion and skipna
sum in the loop body never raise, so the loop always breaks on the first
column when the frame has any). A selected link whose lowercasing only
contains an extension as an inner substring matches no endswith branch
and resolves nothing. -/
def s2 (w : World) (c : Content) (currentUrl : Json) (col : Option String) :
    Option (Json × String) × Option String :=
  match findFileLink c.markup with
  | none => (none, none)
  | some L0 =>
    let L := resolveLink w currentUrl L0
    match w.fetch_bytes L with
    | .error e => (none, some e)
    | .ok content =>
      if endsWithStr (strLower L) ".csv" then
        match w.read_csv content with
        | .error e => (none, some e)
        | .ok df =>
          match col with
          | some cn => ((sum_dataframe_column df cn).map (fun s => (Json.num s, "csv-sum")), none)
          | none =>
            match df.cols with
            | [] => (none, none)
            | c0 :: _ => (some (.num (sumCells c0.2), "csv-first-numeric:" ++ c0.1), none)
      else if endsWithStr (strLower L) ".xls" || endsWithStr (strLower L) ".xlsx" then
        match w.read_excel content with
        | .error e => (none, some e)
        | .ok df =>
          match col with
          | some cn => ((sum_dataframe_column df cn).map (fun s => (Json.num s, "excel-sum")), none)
          | none =>
            match df.cols with
            | [] => (none, none)
            | c0 :: _ => (some (.num (sumCells c0.2), "excel-first-numeric:" ++ c0.1), none)
      else if endsWithStr (strLower L) ".pdf" then
        let text := w.bytesDecodeUtf8 content
        let nums := extract_numbers text
        match col with
        | some _ =>
          (if nums.isEmpty then none else some (.num nums.sum, "pdf-sum-heuristic"), none)
        | none =>
          (if nums.isEmpty then none else some (.num nums.sum, "pdf-sum-all-numbers"), none)
      else (none, none)

/-- Heuristic 3 (worker lines 173-179): when the page speaks of a sum,
add every numeric token of the plain text. -/
def s3 (plain : String) : Option (Json × String) :=
  if strContains (strLower plain) "sum of" || strContains (strLower plain) "what is the sum" then
    let ns := extract_numbers plain
    if ns.isEmpty then none else some (.num ns.sum, "sum-inline-numbers")
  else none

/-- Python isinstance(v, (int, float, str)) — bool passes, being an int
subclass. -/
def scalarJson : Json → Bool
| .num _ => true
| .str _ => true
| .bool _ => true
| _ => false

/-- Heuristic 4 (worker lines 182-204): a truthy template either already
carries a scalar answer, or points via a string url at a data file; a
csv url is fetched and its first column summed, and fetch or parse
errors are swallowed by the bare except at line 203. A template whose
url value is present but not a string raises AttributeError on the
endswith call at line 189, outside any try block. -/
def s4 (w : World) (tpl : Option Json) : Except String (Option (Json × String)) :=
  match tpl with
  | none => .ok none
  | some t =>
    if ¬ t.truthy then .ok none
    else if t.hasKey "answer" && scalarJson (t.getD "answer" .null) then
      .ok (some (t.getD "answer" .null, "from_template"))
    else if t.hasKey "url" then
      match t.getD "url" .null with
      | .str u =>
        if endsWithStr u ".csv" || endsWithStr u ".pdf" || endsWithStr u ".xlsx" then
          match w.fetch_bytes u with
          | .error _ => .ok none
          | .ok content =>
            if endsWithStr u ".csv" then
              match w.read_csv content with
              | .error _ => .ok none
              | .ok df =>
                match df.cols with
                | [] => .ok none
                | c0 :: _ => .ok (some (.num (sumCells c0.2), "template-csv-first-num:" ++ c0.1))
            else .ok none
        else .ok none
      | _ => .error "AttributeError"
    else .ok none

/-- Shared tail of heuristic 5: sum the numeric tokens of the decoded
text. -/
def s5nums (d : String) : Option (Json × String) × Option String :=
  let ns := extract_numbers d
  if ns.isEmpty then (none, none) else (some (.num ns.sum, "decoded-sum"), none)

/-- Heuristic 5 (worker lines 207-218): parse the decoded blob and read
its answer field, else sum its numeric tokens. A JSON answer field
holding null assigns None to the answer while still tagging the method,
recorded here as the residual second component. -/
def s5 (w : World) (decoded : Option String) : Option (Json × String) × Option String :=
  match decoded with
  | none => (none, none)
  | some d =>
    if d = "" then (none, none)
    else
      match try_parse_json_from_text w.jsonLoads d with
      | some js =>
        if js.truthy && js.hasKey "answer" then
          match js.getD "answer" .null with
          | .null => (none, some "decoded-json")
          | a => (some (a, "decoded-json"), none)
        else s5nums d
      | none => s5nums d

/-- Heuristic 6 (worker lines 221-225): best-effort sum of every numeric
token of the plain page text. -/
def s6 (plain : String) : Option (Json × String) :=
  let ns := extract_numbers plain
  if ns.isEmpty then none else some (.num ns.sum, "fallback-sum-page")

/-- Result of the answer cascade for one iteration: the answer value
(null for absent), the last method tag written, the file_error
diagnostic of heuristic 2, and the column name left in scope. -/
structure ResolveOut where
  answer : Json
  method : Option String
  fileError : Option String
  colname : Option String

/-- Worker lines 76-225: the ordered heuristic cascade. Each later block
of the source runs under an answer-is-None guard, which the nested
matches transcribe; heuristic 4 can raise, and its error propagates out
of the whole computation. -/
def resolveAnswer (w : World) (c : Content) (currentUrl : Json) (tpl : Option Json)
    (decoded : Option String) (pcol : Option String) : Except String ResolveOut :=
  let col := colnameOf w c pcol
  match s1 w c with
  | some (a, m) => .ok ⟨a, some m, none, col⟩
  | none =>
    match s2 w c currentUrl col with
    | (some (a, m), fe) => .ok ⟨a, some m, fe, col⟩
    | (none, fe) =>
      match s3 c.plain with
      | some (a, m) => .ok ⟨a, some m, fe, col⟩
      | none =>
        match s4 w tpl with
        | .error e => .error e
        | .ok (some (a, m)) => .ok ⟨a, some m, fe, col⟩
        | .ok none =>
          match s5 w decoded with
          | (some (a, m), _) => .ok ⟨a, some m, fe, col⟩
          | (none, residue) =>
            match s6 c.plain with
            | some (a, m) => .ok ⟨a, some m, fe, col⟩
            | none => .ok ⟨.null, residue, fe, col⟩

/-- Worker lines 227-246: the outgoing payload. An absent answer yields
the conservative payload with the unable-to-parse note; otherwise the
answer plus a _meta dict holding the method tag. -/
def buildAnswerPayload (email secret : String) (currentUrl answer : Json)
    (method : Option String) : Json :=
  match answer with
  | .null =>
    .obj [("email", .str email), ("secret", .str secret), ("url", currentUrl),
      ("answer", .null), ("note", .str "unable to parse task automatically")]
  | a =>
    .obj [("email", .str email), ("secret", .str secret), ("url", currentUrl), ("answer", a),
      ("_meta", .obj [("method", match method with | some m => .str m | none => .null),
        ("raw_page_sample", .null)])]

/-- Python d[k] = v on an insertion-ordered association list: replace in
place or append. -/
def setKey : List (String × Json) → String → Json → List (String × Json)
| [], k, v => [(k, v)]
| (k', v') :: rest, k, v =>
  if k' == k then (k, v) :: rest else (k', v') :: setKey rest k v

/-- Python base.update(entries) over an association list. -/
def dictUpdate (base : List (String × Json)) (entries : List (String × Json)) :
    List (String × Json) :=
  entries.foldl (fun b kv => setKey b kv.1 kv.2) base

/-- Worker lines 249-252: when a truthy template exists, start from its
fields and overwrite with every computed field whose value is not None. -/
def mergeTemplate (tpl : Option Json) (payload : Json) : Json :=
  match tpl with
  | some t =>
    if t.truthy then
      match t, payload with
      | .obj tk, .obj pk => .obj (dictUpdate tk (pk.filter (fun kv => !kv.2.isNull)))
      | _, _ => payload
    else payload
  | none => payload

/-- Worker lines 254-258: a truthy template dict with a truthy submit
field (else a truthy url field) replaces the submit target. -/
def finalSubmitUrl (tpl : Option Json) (su : Json) : Json :=
  match tpl with
  | some t =>
    if t.truthy && t.isObj then
      let possible := pyOr (t.getD "submit" .null) (t.getD "url" .null)
      if possible.truthy then possible else su
    else su
  | none => su

/-- Worker lines 278-284: the continuation URL read from a submission
response — its url field or-else its next field when the body is a
dict, None otherwise. -/
def nextUrlOf (respJson : Json) : Json :=
  if respJson.isObj then pyOr (respJson.getD "url" .null) (respJson.getD "next" .null)
  else .null

/-- Terminal results of solve_quiz_chain, one constructor per return
site of the source. -/
inductive ChainResult where
| success (finalResponse : Json) (submitted : Json) : ChainResult
| noSubmitUrl (pageUrl : Json) (payloadTried : Json) : ChainResult
| submitFailed (reason : String) (payloadTried : Json) : ChainResult
| loopEnded (lastResponse : Option Json) : ChainResult

/-- The success flag of the returned dict. -/
def ChainResult.successFlag : ChainResult → Bool
| .success _ _ => true
| _ => false

/-- The reason field of the returned dict, when the source includes
one. -/
def ChainResult.reasonOf : ChainResult → Option String
| .success _ _ => none
| .noSubmitUrl _ _ => some "No submit URL found on page"
| .submitFailed r _ => some r
| .loopEnded _ => some "timeout or loop ended"

/-- Outcome of one loop iteration: either a terminal result or a
continuation carrying the new current URL, the response recorded as
last_response, and the column name left in scope. -/
inductive IterOut where
| finish (r : ChainResult) : IterOut
| follow (nextUrl : Json) (resp : Json) (colname : Option String) : IterOut

/-- Worker lines 277-291: interpret the submission response — follow a
truthy continuation URL, else finish with success. -/
def afterPost (respJson payload : Json) (col : Option String) : IterOut :=
  let nu := nextUrlOf respJson
  if nu.truthy then .follow nu respJson col else .finish (.success respJson payload)

/-- Worker lines 38-297: one full loop iteration after the navigation
succeeded — extract, resolve, build and merge the payload, pick the
submit target, post, and interpret the response. A raise inside the
cascade propagates as the error case. -/
def iterBody (w : World) (c : Content) (currentUrl : Json) (pcol : Option String)
    (secret email : String) : Except String IterOut := do
  let decoded := pageDecoded w c
  let guess := linkGuess c.plain
  let tpl := detectTemplate w c
  let su0 := submitUrlAfterTemplate w c guess
  let ro ← resolveAnswer w c currentUrl tpl decoded pcol
  let payload0 := buildAnswerPayload email secret currentUrl ro.answer ro.method
  let payload := mergeTemplate tpl payload0
  let su := finalSubmitUrl tpl su0
  if ¬ su.truthy then pure (.finish (.noSubmitUrl currentUrl payload))
  else
    match w.post su payload with
    | .error e => pure (.finish (.submitFailed ("failed to submit answer: " ++ e) payload))
    | .ok pr =>
      let respJson :=
        match pr.jsonBody with
        | some j => j
        | none => .obj [("status_code", .num (pr.statusCode : ℚ)), ("text", .str pr.text)]
      pure (afterPost respJson payload ro.colname)

/-- Whether the per-chain HTTP client and the rendering session were
released when the call ended. On every return site the source closes
both explicitly; when an exception propagates, the async-with scope
stops the rendering engine (releasing the browser session) but nothing
closes the httpx client. -/
structure ResState where
  httpClosed : Bool
  browserClosed : Bool

/-- One prospective loop iteration of the world: the clock sample taken
by the while condition, the navigation outcome, and the library oracles
in effect. -/
structure Iter where
  tcheck : ℤ
  nav : Except String Content
  w : World

/-- Worker lines 37-304: the chain loop. The while condition checks the
current URL truthiness and then the clock against the deadline; a failed
condition returns the timeout-or-loop-ended dict. The iteration list is
the finite observation horizon of time samples and page worlds; its
exhaustion models the clock passing the deadline. An exception
propagating from navigation or from the cascade leaves the function as
the error case with the HTTP client unreleased. -/
def runChainLoop (deadline : ℤ) (secret email : String) :
    List Iter → Json → Option Json → Option String → Except String ChainResult × ResState
| iters, currentUrl, lastResp, col =>
  if ¬ currentUrl.truthy then (.ok (.loopEnded lastResp), ⟨true, true⟩)
  else
    match iters with
    | [] => (.ok (.loopEnded lastResp), ⟨true, true⟩)
    | it :: rest =>
      if it.tcheck < deadline then
        match it.nav with
        | .error e => (.error e, ⟨false, true⟩)
        | .ok content =>
          match iterBody it.w content currentUrl col secret email with
          | .error e => (.error e, ⟨false, true⟩)
          | .ok (.finish r) => (.ok r, ⟨true, true⟩)
          | .ok (.follow u r col') => runChainLoop deadline secret email rest u (some r) col'
      else (.ok (.loopEnded lastResp), ⟨true, true⟩)

/-- worker.solve_quiz_chain: run the loop from the start URL with the
deadline fixed at entry. -/
def solve_quiz_chain (timeoutSeconds startTime : ℤ) (email startUrl secret : String)
    (iters : List Iter) : Except String ChainResult × ResState :=
  runChainLoop (startTime + timeoutSeconds) secret email iters (.str startUrl) none none


/-- First non-absent result of an ordered list of heuristic outcomes,
propagating a raise from the step that is reached. -/
def firstSomeM {α : Type} : List (Except String (Option α)) → Except String (Option α)
| [] => .ok none
| x :: rest =>
  match x with
  | .error e => .error e
  | .ok (some a) => .ok (some a)
  | .ok none => firstSomeM rest

/-- The six heuristics of the resolver in specification order. -/
def cascadeListSpec (w : World) (c : Content) (currentUrl : Json) (tpl : Option Json)
    (decoded : Option String) (col : Option String) :
    List (Except String (Option (Json × String))) :=
  [.ok (s1 w c), .ok (s2 w c currentUrl col).1, .ok (s3 c.plain), s4 w tpl,
    .ok (s5 w decoded).1, .ok (s6 c.plain)]

/-- The cascade tail from the inline-sum heuristic on, reached when the
table and linked-file heuristics produced nothing. -/
def cascadeFromStep3 (w : World) (c : Content) (tpl : Option Json)
    (decoded : Option String) : Except String (Option (Json × String)) :=
  firstSomeM [.ok (s3 c.plain), s4 w tpl, .ok (s5 w decoded).1, .ok (s6 c.plain)]

/-- The submit-URL selection rule in the words of the specification:
the first candidate whose lowercasing contains submit or answer, else
the first candidate overall. -/
def selectSubmitUrlSpec (urls : List String) : Option String :=
  match urls.find? (fun u =>
      strContains (strLower u) "submit" || strContains (strLower u) "answer") with
  | some u => some u
  | none => urls.head?

/-- A world whose oracles all come back empty or failing; concrete
scenarios below override single fields. -/
def wEmpty : World where
  jsonLoads := fun _ => none
  decode_base64_block := fun _ => none
  qMatchCol := fun _ => none
  read_html := fun _ => none
  fetch_bytes := fun _ => .error "fetch"
  read_csv := fun _ => .error "csv"
  read_excel := fun _ => .error "excel"
  bytesDecodeUtf8 := fun _ => ""
  urljoin := fun _ l => l
  post := fun _ _ => .error "post"

/-- A page whose only content is a submit link, and whose submission
endpoint answers with a url field holding the empty string. -/
def cC2 : Content := ⟨"go http://h/submit now", ""⟩

/-- World for the continuation counterexample: the POST succeeds and the
response body is a dict whose url field is present but empty. -/
def wC2 : World :=
  { wEmpty with post := fun _ _ => .ok ⟨some (.obj [("url", .str "")]), 200, ""⟩ }

/-- The page text of the template counterexample: a JSON object with a
submit key and none of the three template keys. -/
def pC5 : String := "\x7b\"submit\": \"http://s/x\"\x7d"

/-- The parse of pC5. -/
def tplC5 : Json := .obj [("submit", .str "http://s/x")]

/-- World whose json.loads accepts exactly pC5. -/
def wC5 : World :=
  { wEmpty with jsonLoads := fun s => if s = pC5 then some tplC5 else none }

/-- Page showing pC5 as its body text. -/
def cC5 : Content := ⟨pC5, ""⟩

/-- A three-key template pointing nowhere, for the template-detection
witness. -/
def tplC5b : Json :=
  .obj [("email", .str "a"), ("secret", .str "b"), ("url", .str "http://u/s")]

/-- Its page text. -/
def pC5b : String := "\x7b\"email\": \"a\", \"secret\": \"b\", \"url\": \"http://u/s\"\x7d"

/-- World whose json.loads maps pC5b to the three-key template. -/
def wC5b : World :=
  { wEmpty with jsonLoads := fun s => if s = pC5b then some tplC5b else none }

/-- Page showing pC5b. -/
def cC5b : Content := ⟨pC5b, ""⟩

/-- The dataframe of the csv counterexample: a first column of text
cells (all coercing to NaN) before the numeric column 1, 2, 3. -/
def dfC6bad : Df := ⟨[("name", [none, none, none]), ("v", [some 1, some 2, some 3])]⟩

/-- World serving that dataframe for any fetched link. -/
def wC6bad : World :=
  { wEmpty with fetch_bytes := fun _ => .ok [], read_csv := fun _ => .ok dfC6bad }

/-- Page linking data.csv and nothing else. -/
def cC6bad : Content := ⟨"", "<a href=\"data.csv\">d</a>"⟩

/-- World serving a one-column numeric csv, for the amended csv
theorem witness. -/
def wC6 : World :=
  { wEmpty with
      fetch_bytes := fun _ => .ok []
      read_csv := fun _ => .ok ⟨[("v", [some 1, some 2, some 3])]⟩ }

/-- The template of the crash counterexample: the three keys present,
with a numeric url value. -/
def tplC7 : Json := .obj [("email", .str "a"), ("secret", .str "b"), ("url", .num 5)]

/-- Its page text. -/
def pC7 : String := "\x7b\"email\": \"a\", \"secret\": \"b\", \"url\": 5\x7d"

/-- World whose json.loads accepts exactly pC7. -/
def wC7 : World :=
  { wEmpty with jsonLoads := fun s => if s = pC7 then some tplC7 else none }

/-- Page showing pC7 as its body text. -/
def cC7 : Content := ⟨pC7, ""⟩

/-- World whose file fetch always raises, for the fetch-absorption
witness. -/
def wFetchErr : World := { wEmpty with fetch_bytes := fun _ => .error "boom" }

/-- The json.loads oracle of the longest-span witness: exactly one
eight-character slice parses. -/
def pLoads : String → Option Json :=
  fun s => if s = "\x7b\"a\": 1\x7d" then some (.obj [("a", .num 1)]) else none

/-- The probed text of the longest-span witness: the parseable object
with two characters before it and one after. -/
def tC9 : String := "xx\x7b\"a\": 1\x7dZ"

theorem isPrefixOf_map {f : Char → Char} :
    ∀ {n h : List Char}, n.isPrefixOf h = true → (n.map f).isPrefixOf (h.map f) = true := by
  intro n
  induction n with
  | nil => intro h _; simp [List.isPrefixOf]
  | cons a as ih =>
    intro h hp
    cases h with
    | nil => simp [List.isPrefixOf] at hp
    | cons b bs =>
      simp only [List.isPrefixOf, Bool.and_eq_true, beq_iff_eq] at hp
      obtain ⟨hab, htail⟩ := hp
      subst hab
      simp only [List.map, List.isPrefixOf, Bool.and_eq_true, beq_iff_eq]
      exact ⟨by simp, ih htail⟩

theorem containsAux_map {f : Char → Char} :
    ∀ {n h : List Char}, containsAux n h = true → containsAux (n.map f) (h.map f) = true := by
  intro n h
  induction h with
  | nil =>
    intro hc
    simp only [containsAux, List.isEmpty_iff] at hc
    subst hc
    simp [containsAux]
  | cons c rest ih =>
    intro hc
    simp only [containsAux, Bool.or_eq_true] at hc ⊢
    rcases hc with hc | hc
    · exact Or.inl (isPrefixOf_map hc)
    · exact Or.inr (ih hc)

theorem strContains_lower {u w : String} (hw : (w.data.map Char.toLower) = w.data)
    (h : strContains u w = true) : strContains (strLower u) w = true := by
  have := containsAux_map (f := Char.toLower) (n := w.data) (h := u.data) h
  rw [hw] at this
  exact this

theorem find?_congrB {α : Type} {p q : α → Bool} (hpq : ∀ a, p a = q a) :
    ∀ l : List α, l.find? p = l.find? q := by
  intro l
  induction l with
  | nil => rfl
  | cons a as ih =>
    simp only [List.find?, hpq a]
    cases q a <;> simp [ih]

theorem lookupKV_setKey_self : ∀ (l : List (String × Json)) (k : String) (v : Json),
    lookupKV (setKey l k v) k = some v := by
  intro l k v
  induction l with
  | nil => simp [setKey, lookupKV]
  | cons p rest ih =>
    obtain ⟨k', v'⟩ := p
    by_cases hk : k' = k
    · subst hk
      simp [setKey, lookupKV]
    · simp [setKey, lookupKV, hk, ih]

theorem lookupKV_setKey_ne : ∀ (l : List (String × Json)) (k : String) (v : Json)
    (k' : String), k ≠ k' → lookupKV (setKey l k v) k' = lookupKV l k' := by
  intro l k v k' hne
  induction l with
  | nil => simp [setKey, lookupKV, hne]
  | cons p rest ih =>
    obtain ⟨k0, v0⟩ := p
    by_cases hk : k0 = k
    · subst hk
      simp [setKey, lookupKV, hne]
    · by_cases hk0 : k0 = k'
      · subst hk0
        simp [setKey, lookupKV, hk]
      · simp [setKey, lookupKV, hk, hk0, ih]

theorem tryEnds_eq_none (P : String → Option Json) (s : List Char) (start : Nat) :
    ∀ n : Nat, (∀ e, start < e → e ≤ n →
      P (String.mk ((s.drop start).take (e - start))) = none) →
    tryEnds P s start n = none := by
  intro n
  induction n with
  | zero => intro _; rfl
  | succ m ih =>
    intro h
    by_cases hs : m + 1 ≤ start
    · simp [tryEnds, hs]
    · have hP := h (m + 1) (by omega) (le_refl _)
      simp only [tryEnds, if_neg hs, hP]
      exact ih (fun e he1 he2 => h e he1 (by omega))

theorem tryEnds_eq_max (P : String → Option Json) (s : List Char) (start : Nat)
    (e : Nat) (v : Json) :
    ∀ n : Nat, start < e → e ≤ n →
    P (String.mk ((s.drop start).take (e - start))) = some v →
    (∀ e', e < e' → e' ≤ n →
      P (String.mk ((s.drop start).take (e' - start))) = none) →
    tryEnds P s start n = some v := by
  intro n
  induction n with
  | zero => intro h1 h2 _ _; omega
  | succ m ih =>
    intro h1 h2 hP hnone
    by_cases he : e = m + 1
    · subst he
      simp [tryEnds, show ¬ m + 1 ≤ start by omega, hP]
    · have hm : e ≤ m := by omega
      have hPm := hnone (m + 1) (by omega) (le_refl _)
      simp only [tryEnds, if_neg (show ¬ m + 1 ≤ start by omega), hPm]
      exact ih h1 hm hP (fun e' he1 he2 => hnone e' he1 (by omega))

theorem firstBrace_spec : ∀ (l : List Char) (i : Nat), firstBrace l = some i →
    l.get? i = some lbrace ∧ ∀ j, j < i → l.get? j ≠ some lbrace := by
  intro l
  induction l with
  | nil => intro i h; simp [firstBrace] at h
  | cons c rest ih =>
    intro i h
    by_cases hc : c = lbrace
    · subst hc
      simp [firstBrace] at h
      subst h
      exact ⟨rfl, fun j hj => by omega⟩
    · simp only [firstBrace, if_neg hc, Option.map_eq_some'] at h
      obtain ⟨i', hi', rfl⟩ := h
      obtain ⟨hget, hbefore⟩ := ih i' hi'
      refine ⟨hget, ?_⟩
      intro j hj
      cases j with
      | zero =>
        simp only [List.get?]
        intro hcontra
        exact hc (Option.some.inj hcontra)
      | succ j' =>
        simp only [List.get?]
        exact hbefore j' (by omega)


/-- C1. The AnswerResolver is the ordered cascade html-table-sum,
linked-file, inline-sum, template-answer, decoded-blob, fallback-sum:
for every page input the resolver result equals the first non-absent
heuristic outcome in that order (carrying its method tag, the heuristic-2
diagnostic and the column name in scope), and when every heuristic comes
back absent the answer is null and the built payload carries the note
unable to parse task automatically. -/
theorem c1_cascade_order :
    (∀ (w : World) (c : Content) (currentUrl : Json) (tpl : Option Json)
        (decoded : Option String) (pcol : Option String),
      resolveAnswer w c currentUrl tpl decoded pcol =
        (firstSomeM (cascadeListSpec w c currentUrl tpl decoded (colnameOf w c pcol))).map
          (fun r =>
            match r with
            | some (a, m) =>
              ⟨a, some m,
                if (s1 w c).isSome then none
                else (s2 w c currentUrl (colnameOf w c pcol)).2, colnameOf w c pcol⟩
            | none =>
              ⟨Json.null, (s5 w decoded).2,
                if (s1 w c).isSome then none
                else (s2 w c currentUrl (colnameOf w c pcol)).2, colnameOf w c pcol⟩))
    ∧ (∀ (w : World) (c : Content) (currentUrl : Json) (tpl : Option Json)
        (decoded : Option String) (pcol : Option String) (email secret : String),
      firstSomeM (cascadeListSpec w c currentUrl tpl decoded (colnameOf w c pcol)) =
          .ok none →
      (resolveAnswer w c currentUrl tpl decoded pcol).map
          (fun o => (o.answer, buildAnswerPayload email secret currentUrl o.answer o.method)) =
        .ok (Json.null,
          .obj [("email", .str email), ("secret", .str secret), ("url", currentUrl),
            ("answer", .null), ("note", .str "unable to parse task automatically")])) := by
  have hA : ∀ (w : World) (c : Content) (currentUrl : Json) (tpl : Option Json)
      (decoded : Option String) (pcol : Option String),
      resolveAnswer w c currentUrl tpl decoded pcol =
        (firstSomeM (cascadeListSpec w c currentUrl tpl decoded (colnameOf w c pcol))).map
          (fun r =>
            match r with
            | some (a, m) =>
              ⟨a, some m,
                if (s1 w c).isSome then none
                else (s2 w c currentUrl (colnameOf w c pcol)).2, colnameOf w c pcol⟩
            | none =>
              ⟨Json.null, (s5 w decoded).2,
                if (s1 w c).isSome then none
                else (s2 w c currentUrl (colnameOf w c pcol)).2, colnameOf w c pcol⟩) := by
    intro w c url tpl dec pcol
    unfold resolveAnswer cascadeListSpec
    cases h1 : s1 w c with
    | some p =>
      obtain ⟨a, m⟩ := p
      simp [h1, firstSomeM, Except.map]
    | none =>
      rcases h2 : s2 w c url (colnameOf w c pcol) with ⟨o2, fe⟩
      cases o2 with
      | some p =>
        obtain ⟨a, m⟩ := p
        simp [h1, h2, firstSomeM, Except.map]
      | none =>
        cases h3 : s3 c.plain with
        | some p =>
          obtain ⟨a, m⟩ := p
          simp [h1, h2, h3, firstSomeM, Except.map]
        | none =>
          cases h4 : s4 w tpl with
          | error e => simp [h1, h2, h3, h4, firstSomeM, Except.map]
          | ok o4 =>
            cases o4 with
            | some p =>
              obtain ⟨a, m⟩ := p
              simp [h1, h2, h3, h4, firstSomeM, Except.map]
            | none =>
              rcases h5 : s5 w dec with ⟨o5, residue⟩
              cases o5 with
              | some p =>
                obtain ⟨a, m⟩ := p
                simp [h1, h2, h3, h4, h5, firstSomeM, Except.map]
              | none =>
                cases h6 : s6 c.plain with
                | some p =>
                  obtain ⟨a, m⟩ := p
                  simp [h1, h2, h3, h4, h5, h6, firstSomeM, Except.map]
                | none =>
                  simp [h1, h2, h3, h4, h5, h6, firstSomeM, Except.map]
  refine ⟨hA, ?_⟩
  intro w c url tpl dec pcol email secret h
  rw [hA w c url tpl dec pcol, h]
  simp [buildAnswerPayload, Except.map]

theorem c1_witness :
    (resolveAnswer wEmpty ⟨"nothing here", ""⟩ (.str "u") none none none).map
        (fun o => (o.answer, buildAnswerPayload "e@x" "s" (.str "u") o.answer o.method)) =
      .ok (Json.null,
        .obj [("email", .str "e@x"), ("secret", .str "s"), ("url", .str "u"),
          ("answer", .null), ("note", .str "unable to parse task automatically")]) :=
  c1_cascade_order.2 wEmpty ⟨"nothing here", ""⟩ (.str "u") none none none "e@x" "s" (by rfl)

/-- C2 counterexample. A submission response whose url field is present
but holds the empty string ends the chain with success, although the
claim requires the loop to continue whenever the field is present. -/
theorem c2_counterexample :
    (solve_quiz_chain 180 0 "e@x" "http://start" "sec" [⟨0, .ok cC2, wC2⟩]).1 =
      .ok (.success (.obj [("url", .str "")])
        (.obj [("email", .str "e@x"), ("secret", .str "sec"), ("url", .str "http://start"),
          ("answer", .null), ("note", .str "unable to parse task automatically")]))
    ∧ (Json.obj [("url", .str "")]).hasKey "url" = true := by
  exact ⟨rfl, rfl⟩

/-- C2 amended. The continuation URL is the response url field when that
value is truthy, else the next field when that value is truthy; when
neither field holds a truthy value the chain ends with success carrying
the final response and the submitted payload; and a follow outcome makes
the loop continue with the new current URL. -/
theorem c2_amended :
    (∀ (kvs : List (String × Json)) (payload : Json) (col : Option String),
      ((Json.obj kvs).getD "url" .null).truthy = true →
        afterPost (.obj kvs) payload col =
          .follow ((Json.obj kvs).getD "url" .null) (.obj kvs) col)
    ∧ (∀ (kvs : List (String × Json)) (payload : Json) (col : Option String),
      ((Json.obj kvs).getD "url" .null).truthy = false →
      ((Json.obj kvs).getD "next" .null).truthy = true →
        afterPost (.obj kvs) payload col =
          .follow ((Json.obj kvs).getD "next" .null) (.obj kvs) col)
    ∧ (∀ (kvs : List (String × Json)) (payload : Json) (col : Option String),
      ((Json.obj kvs).getD "url" .null).truthy = false →
      ((Json.obj kvs).getD "next" .null).truthy = false →
        afterPost (.obj kvs) payload col = .finish (.success (.obj kvs) payload))
    ∧ (∀ (d : ℤ) (secret email : String) (t : ℤ) (content : Content) (w : World)
        (rest : List Iter) (url : Json) (lastR : Option Json) (col : Option String)
        (u r : Json) (col' : Option String),
      url.truthy = true → t < d →
      iterBody w content url col secret email = .ok (.follow u r col') →
      runChainLoop d secret email (⟨t, .ok content, w⟩ :: rest) url lastR col =
        runChainLoop d secret email rest u (some r) col') := by
  refine ⟨?_, ?_, ?_, ?_⟩
  · intro kvs payload col h
    simp [afterPost, nextUrlOf, pyOr, Json.isObj, h]
  · intro kvs payload col h1 h2
    simp [afterPost, nextUrlOf, pyOr, Json.isObj, h1, h2]
  · intro kvs payload col h1 h2
    simp [afterPost, nextUrlOf, pyOr, Json.isObj, h1, h2]
  · intro d secret email t content w rest url lastR col u r col' hu ht hiter
    conv_lhs => rw [runChainLoop]
    simp [hu, ht, hiter]

theorem c2_amended_witness :
    afterPost (.obj [("next", .str "https://x/page2")]) (.obj []) none =
      .follow (Json.str "https://x/page2") (.obj [("next", .str "https://x/page2")]) none := by
  have h := c2_amended.2.1 [("next", .str "https://x/page2")] (.obj []) none (by rfl) (by rfl)
  exact h

/-- C3. The chain deadline is sampled only by the while condition: a
sample at or past the deadline ends the chain with success false and
reason timeout or loop ended no matter what the pending iteration or the
rest of the world would have done, and runs whose condition samples
decide identically under two deadlines behave identically — the
deadline is never consulted inside an iteration. -/
theorem c3_deadline_between_iterations :
    (∀ (deadline : ℤ) (secret email : String) (it : Iter) (rest : List Iter)
        (url : Json) (lastR : Option Json) (col : Option String),
      url.truthy = true → ¬ it.tcheck < deadline →
      runChainLoop deadline secret email (it :: rest) url lastR col =
        (.ok (.loopEnded lastR), ⟨true, true⟩) ∧
      (ChainResult.loopEnded lastR).successFlag = false ∧
      (ChainResult.loopEnded lastR).reasonOf = some "timeout or loop ended")
    ∧ (∀ (d₁ d₂ : ℤ) (secret email : String) (iters : List Iter) (url : Json)
        (lastR : Option Json) (col : Option String),
      (∀ it ∈ iters, (it.tcheck < d₁) = (it.tcheck < d₂)) →
      runChainLoop d₁ secret email iters url lastR col =
        runChainLoop d₂ secret email iters url lastR col) := by
  constructor
  · intro deadline secret email it rest url lastR col hu ht
    refine ⟨?_, rfl, rfl⟩
    conv_lhs => rw [runChainLoop]
    simp [hu, ht]
  · intro d₁ d₂ secret email iters
    induction iters with
    | nil => intro url lastR col _; rfl
    | cons it rest ih =>
      intro url lastR col h
      have hc : (it.tcheck < d₁) = (it.tcheck < d₂) := h it (by simp)
      by_cases hu : url.truthy
      · by_cases hd : it.tcheck < d₁
        · have hd2 : it.tcheck < d₂ := hc ▸ hd
          cases hn : it.nav with
          | error e =>
            conv_lhs => rw [runChainLoop]
            conv_rhs => rw [runChainLoop]
            simp [hu, hd, hd2, hn]
          | ok content =>
            cases hb : iterBody it.w content url col secret email with
            | error e =>
              conv_lhs => rw [runChainLoop]
              conv_rhs => rw [runChainLoop]
              simp [hu, hd, hd2, hn, hb]
            | ok iout =>
              cases iout with
              | finish r =>
                conv_lhs => rw [runChainLoop]
                conv_rhs => rw [runChainLoop]
                simp [hu, hd, hd2, hn, hb]
              | follow u r col' =>
                conv_lhs => rw [runChainLoop]
                conv_rhs => rw [runChainLoop]
                simp only [hu, hd, hd2, hn, hb, not_true, if_false, if_true, ite_true,
                  ite_false, if_pos, Bool.not_true]
                exact ih u (some r) col' (fun it' hm => h it' (List.mem_cons_of_mem _ hm))
        · have hd2 : ¬ it.tcheck < d₂ := by rw [← hc]; exact hd
          conv_lhs => rw [runChainLoop]
          conv_rhs => rw [runChainLoop]
          simp [hu, hd, hd2]
      · conv_lhs => rw [runChainLoop]
        conv_rhs => rw [runChainLoop]
        simp [hu]

theorem c3_witness :
    runChainLoop 5 "s" "e" [⟨10, .error "x", wEmpty⟩] (.str "u") none none =
      (.ok (.loopEnded none), ⟨true, true⟩) :=
  (c3_deadline_between_iterations.1 5 "s" "e" ⟨10, .error "x", wEmpty⟩ [] (.str "u") none none
    (by rfl) (by norm_num)).1

theorem runChainLoop_res (d : ℤ) (secret email : String) :
    ∀ (iters : List Iter) (url : Json) (lastR : Option Json) (col : Option String),
    (runChainLoop d secret email iters url lastR col).2 = ⟨true, true⟩ ∨
    ((∃ e, (runChainLoop d secret email iters url lastR col).1 = .error e) ∧
      (runChainLoop d secret email iters url lastR col).2 = ⟨false, true⟩) := by
  intro iters
  induction iters with
  | nil =>
    intro url lastR col
    rw [runChainLoop]
    split
    · exact Or.inl rfl
    · exact Or.inl rfl
  | cons it rest ih =>
    intro url lastR col
    by_cases hu : url.truthy
    · by_cases hd : it.tcheck < d
      · cases hn : it.nav with
        | error e =>
          conv_lhs => rw [runChainLoop]
          right
          refine ⟨⟨e, ?_⟩, ?_⟩ <;> simp [hu, hd, hn, runChainLoop]
        | ok content =>
          cases hb : iterBody it.w content url col secret email with
          | error e =>
            right
            refine ⟨⟨e, ?_⟩, ?_⟩ <;> (rw [runChainLoop]; simp [hu, hd, hn, hb])
          | ok iout =>
            cases iout with
            | finish r =>
              left
              rw [runChainLoop]
              simp [hu, hd, hn, hb]
            | follow u r col' =>
              have := ih u (some r) col'
              rw [runChainLoop]
              simpa [hu, hd, hn, hb] using this
      · left
        rw [runChainLoop]
        simp [hu, hd]
    · left
      rw [runChainLoop]
      simp [hu]

/-- C8 amended. On every returning exit path of the chain — success,
submit failure, missing submit target, and timeout — both the HTTP
client and the rendering session are released; the rendering session is
released on every path including exceptional ones, but an execution that
ends in a propagated exception leaves the HTTP client unreleased. -/
theorem c8_amended :
    (∀ (d : ℤ) (secret email : String) (iters : List Iter) (url : Json)
        (lastR : Option Json) (col : Option String) (r : ChainResult),
      (runChainLoop d secret email iters url lastR col).1 = .ok r →
      (runChainLoop d secret email iters url lastR col).2 = ⟨true, true⟩)
    ∧ (∀ (d : ℤ) (secret email : String) (iters : List Iter) (url : Json)
        (lastR : Option Json) (col : Option String),
      (runChainLoop d secret email iters url lastR col).2.browserClosed = true) := by
  constructor
  · intro d secret email iters url lastR col r h
    rcases runChainLoop_res d secret email iters url lastR col with h2 | ⟨⟨e, he⟩, h2⟩
    · exact h2
    · rw [he] at h
      exact absurd h (by simp)
  · intro d secret email iters url lastR col
    rcases runChainLoop_res d secret email iters url lastR col with h2 | ⟨_, h2⟩ <;>
      rw [h2]

theorem c8_witness :
    (runChainLoop 5 "s" "e" [] (.str "u") none none).2 = ⟨true, true⟩ :=
  c8_amended.1 5 "s" "e" [] (.str "u") none none (.loopEnded none) (by rfl)

/-- C8 counterexample. A chain whose first navigation raises terminates
by exception with the HTTP client still unreleased, refuting the claim
that no execution of the chain terminates with either resource held. -/
theorem c8_counterexample :
    (solve_quiz_chain 180 0 "e@x" "http://start" "sec"
        [⟨0, .error "net::ERR_CONNECTION_REFUSED", wEmpty⟩]).2.httpClosed = false ∧
    (solve_quiz_chain 180 0 "e@x" "http://start" "sec"
        [⟨0, .error "net::ERR_CONNECTION_REFUSED", wEmpty⟩]).1 =
      .error "net::ERR_CONNECTION_REFUSED" :=
  ⟨rfl, rfl⟩

/-- C4 amended. The submit-URL guess scans the plain visible text of the
page (not the markup attributes): it equals the specification selection
rule — first URL token containing submit or answer case-insensitively,
else the first token — applied to the URL tokens of the plain text. -/
theorem c4_amended : ∀ plain : String,
    linkGuess plain =
      (match selectSubmitUrlSpec (findUrls plain) with
       | some u => Json.str u
       | none => Json.null) := by
  intro plain
  unfold linkGuess selectSubmitUrlSpec
  cases hf : findUrls plain with
  | nil => rfl
  | cons c0 cs =>
    dsimp only
    have hpt : ∀ u : String,
        (strContains u "submit" || strContains (strLower u) "submit" ||
          strContains (strLower u) "answer") =
        (strContains (strLower u) "submit" || strContains (strLower u) "answer") := by
      intro u
      cases hb : strContains u "submit" with
      | false => simp
      | true =>
        have h2 : strContains (strLower u) "submit" = true :=
          strContains_lower (by decide) hb
        simp [h2]
    rw [find?_congrB hpt (c0 :: cs)]
    cases hfind : (c0 :: cs).find? (fun u =>
        strContains (strLower u) "submit" || strContains (strLower u) "answer") with
    | some u => simp
    | none => simp

/-- C4 counterexample. On a page whose plain text holds one URL and
whose markup holds a different submit URL, the code guesses the
plain-text URL while the claim — selection among the markup URL tokens —
would pick the markup submit URL. -/
theorem c4_counterexample :
    linkGuess "see http://a.com/x ok go" = .str "http://a.com/x" ∧
    selectSubmitUrlSpec
        (findUrls
          "<body>see http://a.com/x ok <a href=\"http://b.com/submit\">go</a></body>") =
      some "http://b.com/submit" ∧
    Json.str "http://a.com/x" ≠ Json.str "http://b.com/submit" := by
  refine ⟨rfl, rfl, ?_⟩
  simp

/-- C5 counterexample. A page whose body is a JSON object with only a
submit key is adopted as the payload template through the
dumps-contains-submit branch, refuting the claim that a parsed JSON
object is a template only if it has all of email, secret and url. -/
theorem c5_counterexample :
    detectTemplate wC5 cC5 = some tplC5 ∧ hasTemplateKeys tplC5 = false :=
  ⟨rfl, rfl⟩

/-- C5 amended. A plain-text JSON parse with the three keys email,
secret, url is adopted as the template; in addition any truthy parsed
JSON whose dumps rendering contains submit case-insensitively yields a
template even without those keys; and before submission a truthy
template object overrides the submit target with its truthy submit
field, else its truthy url field, else keeps the prior guess. -/
theorem c5_amended :
    (∀ (w : World) (c : Content) (jsn : Json),
      try_parse_json_from_text w.jsonLoads c.plain = some jsn →
      jsn.truthy = true → hasTemplateKeys jsn = true →
      detectTemplate w c = some jsn)
    ∧ (∀ (w : World) (c : Content) (pj : Json),
      pageParsedJson w c = some pj → pj.truthy = true →
      strContains (strLower (Json.dumps pj)) "submit" = true →
      (detectTemplate w c).isSome = true)
    ∧ (∀ (t su : Json),
      t.truthy = true → t.isObj = true → (t.getD "submit" .null).truthy = true →
      finalSubmitUrl (some t) su = t.getD "submit" .null)
    ∧ (∀ (t su : Json),
      t.truthy = true → t.isObj = true → (t.getD "submit" .null).truthy = false →
      (t.getD "url" .null).truthy = true →
      finalSubmitUrl (some t) su = t.getD "url" .null)
    ∧ (∀ (t su : Json),
      t.truthy = true → t.isObj = true → (t.getD "submit" .null).truthy = false →
      (t.getD "url" .null).truthy = false →
      finalSubmitUrl (some t) su = su) := by
  refine ⟨?_, ?_, ?_, ?_, ?_⟩
  · intro w c jsn h ht hk
    unfold detectTemplate
    rw [h]
    simp [ht, hk]
  · intro w c pj hp ht hs
    unfold detectTemplate
    cases h : try_parse_json_from_text w.jsonLoads c.plain with
    | none =>
      unfold template64
      rw [hp]
      simp [ht, hs]
    | some jsn =>
      cases hcond : (jsn.truthy && hasTemplateKeys jsn) with
      | true => simp [hcond]
      | false =>
        simp only [hcond, if_false, Bool.false_eq_true]
        unfold template64
        rw [hp]
        simp [ht, hs]
  · intro t su ht hobj hsub
    simp [finalSubmitUrl, pyOr, ht, hobj, hsub]
  · intro t su ht hobj hsub hurl
    simp [finalSubmitUrl, pyOr, ht, hobj, hsub, hurl]
  · intro t su ht hobj hsub hurl
    simp [finalSubmitUrl, pyOr, ht, hobj, hsub, hurl]

theorem c5_witness : detectTemplate wC5b cC5b = some tplC5b :=
  c5_amended.1 wC5b cC5b tplC5b (by rfl) (by rfl) (by rfl)

/-- C6 amended. When no column name is in scope and the first linked
data file resolves to a csv that parses, the answer is the skipna sum of
the coerced cells of the first column — whatever that column holds —
with the csv-first-numeric method tag naming that column. -/
theorem c6_amended :
    ∀ (w : World) (c : Content) (currentUrl : Json) (L0 L : String)
      (bs : Bytes) (df : Df) (n : String) (cells : List (Option ℚ))
      (restCols : List (String × List (Option ℚ))),
    findFileLink c.markup = some L0 →
    resolveLink w currentUrl L0 = L →
    endsWithStr (strLower L) ".csv" = true →
    w.fetch_bytes L = .ok bs →
    w.read_csv bs = .ok df →
    df.cols = (n, cells) :: restCols →
    s2 w c currentUrl none =
      (some (.num (sumCells cells), "csv-first-numeric:" ++ n), none) := by
  intro w c url L0 L bs df n cells restCols h1 h2 h3 h4 h5 h6
  unfold s2
  simp [h1, h2, h3, h4, h5, h6]

theorem c6_witness :
    s2 wC6 ⟨"", "<a href=\"data.csv\">d</a>"⟩ (.str "http://p") none =
      (some (.num 6, "csv-first-numeric:v"), none) := by
  have hs : sumCells [some (1 : ℚ), some 2, some 3] = 6 := by
    simp [sumCells]
    norm_num
  have h := c6_amended wC6 ⟨"", "<a href=\"data.csv\">d</a>"⟩ (.str "http://p")
    "data.csv" "data.csv" [] ⟨[("v", [some 1, some 2, some 3])]⟩ "v"
    [some 1, some 2, some 3] [] rfl rfl rfl rfl rfl rfl
  rw [h, hs]
  rfl

/-- C6 counterexample. A linked csv whose sole numeric column is 1, 2, 3
but whose first column is text resolves to answer 0 — the sum of the
coerced first column — not to 6 as the claim predicts. -/
theorem c6_counterexample :
    resolveAnswer wC6bad cC6bad (.str "http://p") none none none =
      .ok ⟨.num 0, some "csv-first-numeric:name", none, none⟩ ∧
    Json.num 0 ≠ Json.num 6 := by
  refine ⟨rfl, ?_⟩
  simp only [ne_eq, Json.num.injEq]
  norm_num

/-- C7 counterexample. A page whose body is a three-key template with a
numeric url value and no scalar answer makes heuristic 4 raise an
uncaught AttributeError that escapes the chain, refuting the claim that
only submit failure, missing submit target and timeout can be the
terminal outcome. -/
theorem c7_counterexample :
    (solve_quiz_chain 180 0 "e@x" "http://start" "sec" [⟨0, .ok cC7, wC7⟩]).1 =
      .error "AttributeError" := rfl

/-- C7 amended. A linked-file fetch failure is caught, recorded as the
file_error diagnostic, and the cascade proceeds to the later heuristics
with that diagnostic attached; a template-file fetch failure in
heuristic 4 is swallowed entirely; but a detected template whose url
value is not a string (with no scalar answer) raises out of the resolver
instead of being absorbed. -/
theorem c7_amended :
    (∀ (w : World) (c : Content) (url : Json) (col : Option String) (L0 e : String),
      findFileLink c.markup = some L0 →
      w.fetch_bytes (resolveLink w url L0) = .error e →
      s2 w c url col = (none, some e))
    ∧ (∀ (w : World) (c : Content) (url : Json) (tpl : Option Json)
        (decoded : Option String) (pcol : Option String) (fe : Option String),
      s1 w c = none →
      s2 w c url (colnameOf w c pcol) = (none, fe) →
      resolveAnswer w c url tpl decoded pcol =
        (cascadeFromStep3 w c tpl decoded).map
          (fun r =>
            match r with
            | some (a, m) => ⟨a, some m, fe, colnameOf w c pcol⟩
            | none => ⟨Json.null, (s5 w decoded).2, fe, colnameOf w c pcol⟩))
    ∧ (∀ (w : World) (t : Json) (u e : String),
      t.truthy = true → t.hasKey "answer" = false → t.hasKey "url" = true →
      t.getD "url" .null = .str u →
      (endsWithStr u ".csv" || endsWithStr u ".pdf" || endsWithStr u ".xlsx") = true →
      w.fetch_bytes u = .error e →
      s4 w (some t) = .ok none) := by
  refine ⟨?_, ?_, ?_⟩
  · intro w c url col L0 e h1 h2
    unfold s2
    simp [h1, h2]
  · intro w c url tpl decoded pcol fe h1 h2
    unfold resolveAnswer cascadeFromStep3
    cases h3 : s3 c.plain with
    | some p =>
      obtain ⟨a, m⟩ := p
      simp [h1, h2, h3, firstSomeM, Except.map]
    | none =>
      cases h4 : s4 w tpl with
      | error e => simp [h1, h2, h3, h4, firstSomeM, Except.map]
      | ok o4 =>
        cases o4 with
        | some p =>
          obtain ⟨a, m⟩ := p
          simp [h1, h2, h3, h4, firstSomeM, Except.map]
        | none =>
          rcases h5 : s5 w decoded with ⟨o5, residue⟩
          cases o5 with
          | some p =>
            obtain ⟨a, m⟩ := p
            simp [h1, h2, h3, h4, h5, firstSomeM, Except.map]
          | none =>
            cases h6 : s6 c.plain with
            | some p =>
              obtain ⟨a, m⟩ := p
              simp [h1, h2, h3, h4, h5, h6, firstSomeM, Except.map]
            | none => simp [h1, h2, h3, h4, h5, h6, firstSomeM, Except.map]
  · intro w t u e ht hans hurl hget hext hfetch
    unfold s4
    simp [ht, hans, hurl, hget, hext, hfetch]

theorem c7_witness :
    s2 wFetchErr ⟨"", "<a href=\"x.csv\">d</a>"⟩ (.str "http://p") none =
      (none, some "boom") :=
  c7_amended.1 wFetchErr ⟨"", "<a href=\"x.csv\">d</a>"⟩ (.str "http://p") none "x.csv" "boom"
    rfl rfl

/-- C9. JSON-blob discovery finds the index of the first left brace
(nothing earlier is a brace), and returns the parse of the longest slice
starting there that the parser accepts, trying successively shorter ends
until one parses; it yields nothing when there is no brace or when no
slice starting at the brace parses. -/
theorem c9_longest_json_span :
    (∀ (P : String → Option Json) (text : String),
      firstBrace text.data = none → try_parse_json_from_text P text = none)
    ∧ (∀ (l : List Char) (i : Nat), firstBrace l = some i →
      l.get? i = some lbrace ∧ ∀ j, j < i → l.get? j ≠ some lbrace)
    ∧ (∀ (P : String → Option Json) (text : String) (start : Nat),
      firstBrace text.data = some start →
      (∀ e, start < e → e ≤ text.data.length → P (sliceStr text start e) = none) →
      try_parse_json_from_text P text = none)
    ∧ (∀ (P : String → Option Json) (text : String) (start e : Nat) (v : Json),
      firstBrace text.data = some start →
      start < e → e ≤ text.data.length →
      P (sliceStr text start e) = some v →
      (∀ e', e < e' → e' ≤ text.data.length → P (sliceStr text start e') = none) →
      try_parse_json_from_text P text = some v) := by
  refine ⟨?_, firstBrace_spec, ?_, ?_⟩
  · intro P text h
    unfold try_parse_json_from_text
    rw [h]
  · intro P text start h hall
    unfold try_parse_json_from_text
    rw [h]
    exact tryEnds_eq_none P text.data start _ (fun e he1 he2 => hall e he1 he2)
  · intro P text start e v h h1 h2 hP hnone
    unfold try_parse_json_from_text
    rw [h]
    exact tryEnds_eq_max P text.data start e v _ h1 h2 hP hnone

theorem c9_witness :
    try_parse_json_from_text pLoads tC9 = some (.obj [("a", .num 1)]) :=
  c9_longest_json_span.2.2.2 pLoads tC9 2 10 (.obj [("a", .num 1)]) rfl (by decide) (by decide)
    rfl (by
      intro e' h1 h2
      have he : e' = 11 := by
        have : tC9.data.length = 11 := by decide
        omega
      subst he
      rfl)

/-- C10. The outgoing payload always carries email, secret and url with
the computed values — both the directly built payload and the payload
after merging with any template object, since the computed non-null
fields overwrite the template fields. -/
theorem c10_payload_invariant :
    ∀ (email secret : String) (currentUrl answer : Json) (m : Option String)
      (tk : List (String × Json)),
    currentUrl.isNull = false →
    ((buildAnswerPayload email secret currentUrl answer m).getKey "email" =
        some (.str email) ∧
      (buildAnswerPayload email secret currentUrl answer m).getKey "secret" =
        some (.str secret) ∧
      (buildAnswerPayload email secret currentUrl answer m).getKey "url" =
        some currentUrl)
    ∧ ((mergeTemplate (some (.obj tk))
          (buildAnswerPayload email secret currentUrl answer m)).getKey "email" =
        some (.str email) ∧
      (mergeTemplate (some (.obj tk))
          (buildAnswerPayload email secret currentUrl answer m)).getKey "secret" =
        some (.str secret) ∧
      (mergeTemplate (some (.obj tk))
          (buildAnswerPayload email secret currentUrl answer m)).getKey "url" =
        some currentUrl) := by
  intro email secret currentUrl answer m tk hcu
  have hbase : (buildAnswerPayload email secret currentUrl answer m).getKey "email" =
        some (.str email) ∧
      (buildAnswerPayload email secret currentUrl answer m).getKey "secret" =
        some (.str secret) ∧
      (buildAnswerPayload email secret currentUrl answer m).getKey "url" =
        some currentUrl := by
    cases answer <;> simp [buildAnswerPayload, Json.getKey, lookupKV]
  refine ⟨hbase, ?_⟩
  cases tk with
  | nil =>
    simpa [mergeTemplate, Json.truthy] using hbase
  | cons hd tl =>
    cases currentUrl
    case null => exact absurd hcu (by simp [Json.isNull])
    all_goals
      cases answer <;>
        simp [mergeTemplate, Json.truthy, buildAnswerPayload, Json.getKey, Json.isNull,
          dictUpdate, List.filter, List.foldl_cons, List.foldl_nil,
          lookupKV_setKey_self, lookupKV_setKey_ne]

theorem c10_witness :
    ((mergeTemplate (some (.obj [("email", .str "t"), ("answer", .num 9)]))
        (buildAnswerPayload "e" "s" (.str "u") .null none)).getKey "email" =
      some (.str "e") ∧
    (mergeTemplate (some (.obj [("email", .str "t"), ("answer", .num 9)]))
        (buildAnswerPayload "e" "s" (.str "u") .null none)).getKey "secret" =
      some (.str "s") ∧
    (mergeTemplate (some (.obj [("email", .str "t"), ("answer", .num 9)]))
        (buildAnswerPayload "e" "s" (.str "u") .null none)).getKey "url" =
      some (.str "u")) :=
  (c10_payload_invariant "e" "s" (.str "u") .null none
    [("email", .str "t"), ("answer", .num 9)] rfl).2
